import Mathlib

/-
Shallow embedding of `src/app/page.tsx` (Creator Reels biography landing page).

The source file contains two revisions of the same page component.  Definitions
suffixed `_v1` come from the first revision (lines 1-285) and `_v2` from the
second, hardened revision (lines 286-469).  Where the two revisions agree, a
single unsuffixed definition is shared.

JavaScript numbers used here are integer-valued indices and pixel coordinates;
they are embedded as `Int`, and the JS `%` operator (truncating remainder) as
`Int.tmod`.  The `window.open` side effect is embedded as appending the opened
URL to a chronological log, and `sessionStorage` as an association list
together with an explicit environment describing window availability and
whether reads/writes throw.
-/

-- ----------------------------
-- Data model (lines 19-24 / 309-314)
-- ----------------------------

/-- Creator record (`interface Model`). -/
structure Model where
  name : String
  url : String
  image : String
  tags : List String
  deriving DecidableEq

/-- Raw, possibly-partial input record (`Partial<Model>`, lines 29-48 / 316-335). -/
structure RawModel where
  name : Option String
  url : Option String
  image : Option String
  tags : Option (List String)

/-- Normalization applied when freezing `MODELS` (lines 51-60 / 337-346):
missing fields are defaulted, non-array tags coerced to `[]`. -/
def normalizeModel (m : RawModel) : Model :=
  { name := m.name.getD "Unnamed"
    url := m.url.getD "#"
    image := m.image.getD "https://placehold.co/720x1280?text=Image+Missing%5Cn9:16"
    tags := m.tags.getD [] }

/-- The hardcoded creator list (`RAW_MODELS`, lines 29-48 / 316-335). -/
def RAW_MODELS : List RawModel :=
  [ { name := some "Charvi Bhatt"
      url := some "https://link-shortner-indol-nu.vercel.app/v0riwp"
      image := some "https://i.ibb.co/xqwpVcCB/IMG-20251110-003150-720.jpg"
      tags := some ["actress", "biography", "reels"] }
  , { name := some "Arushi Chatterjee"
      url := some "https://link-shortner-indol-nu.vercel.app/gpvegn"
      image := some "https://i.ibb.co/5WrM1PSf/photo-2025-11-10-08-09-45.jpg"
      tags := some ["actress", "bio"] }
  , { name := some "Your Creator 3"
      url := some "#"
      image := some "https://placehold.co/720x1280?text=Creator+3%5Cn9:16"
      tags := some ["new"] } ]

/-- The frozen, normalized directory (`MODELS`, lines 51-60 / 337-346).
The `.filter` removing non-objects removes nothing from this literal list. -/
def MODELS : List Model := RAW_MODELS.map normalizeModel

-- ----------------------------
-- Substring matching (JS `String.prototype.includes`)
-- ----------------------------

/-- Character-list version of "p is a prefix of s". -/
def startsWithL : List Char → List Char → Bool
  | _, [] => true
  | [], _ :: _ => false
  | c :: s, d :: p => c == d && startsWithL s p

/-- Character-list version of JS `s.includes(p)`: p occurs contiguously in s. -/
def containsSub : List Char → List Char → Bool
  | [], p => startsWithL [] p
  | c :: s, p => startsWithL (c :: s) p || containsSub s p

/-- JS `s.includes(sub)` on strings. -/
def jsIncludes (s sub : String) : Bool := containsSub s.data sub.data

/-- JS `s.toLowerCase()`: characterwise lowering. -/
def jsToLower (s : String) : String := ⟨s.data.map Char.toLower⟩

/-- JS `s.trim()`: strip whitespace from both ends. -/
def jsTrim (s : String) : String :=
  ⟨((s.data.dropWhile Char.isWhitespace).reverse.dropWhile Char.isWhitespace).reverse⟩

-- ----------------------------
-- Filter Engine (lines 101-106 / 368-373)
-- ----------------------------

/-- One record's match test against the (already trimmed+lowercased) query:
`[m.name, ...(m.tags || [])].some((t) => t.toLowerCase().includes(q))`. -/
def matchesQuery (m : Model) (q : String) : Bool :=
  (m.name :: m.tags).any (fun t => jsIncludes (jsToLower t) q)

/-- The `filtered` memo (lines 101-106 / 368-373), parametrized by the
directory it closes over (`MODELS` in the source).  The v1 copy via spread and
the v2 alias return are the same value; one definition covers both. -/
def filtered (dir : List Model) (query : String) : List Model :=
  let q := jsToLower (jsTrim query)
  if q = "" then dir
  else
    let result := dir.filter (fun m => matchesQuery m q)
    if 0 < result.length then result else dir

-- ----------------------------
-- Navigation Cursor (lines 109-116 / 375-381)
-- ----------------------------

/-- Clamp effect of revision 1 (lines 109-112): on length 0 the index is forced
to 0; otherwise any index outside `[0, l)` (including negative) is reset to 0. -/
def clampIndex_v1 (index : Int) (l : Nat) : Int :=
  if l = 0 then (if index ≠ 0 then 0 else index)
  else if (l : Int) ≤ index ∨ index < 0 then 0 else index

/-- Clamp effect of revision 2 (lines 375-377): only `index >= filtered.length`
is reset; a negative index is left unchanged. -/
def clampIndex_v2 (index : Int) (l : Nat) : Int :=
  if (l : Int) ≤ index then 0 else index

/-- `Math.max(filtered.length, 1)` (lines 114 / 379). -/
def cycleLen (l : Nat) : Int := max (l : Int) 1

/-- `next` (lines 115 / 380): `(i + 1) % cycleLen` with JS truncating `%`. -/
def next (l : Nat) (i : Int) : Int := (i + 1).tmod (cycleLen l)

/-- `prev` (lines 116 / 381): `(i - 1 + cycleLen) % cycleLen`. -/
def prev (l : Nat) (i : Int) : Int := (i - 1 + cycleLen l).tmod (cycleLen l)

-- ----------------------------
-- Session storage (lines 119-124 / 383-388)
-- ----------------------------

/-- Association-list model of `window.sessionStorage` contents. -/
abbrev Table := List (String × String)

/-- Environment flags: whether `window` exists, whether `getItem` throws and
whether `setItem` throws. -/
structure StorageEnv where
  hasWindow : Bool
  readThrows : Bool
  writeThrows : Bool
  deriving DecidableEq

/-- Lookup in the storage table (most recent write wins). -/
def tableGet : Table → String → Option String
  | [], _ => none
  | (k, v) :: t, key => if k = key then some v else tableGet t key

/-- `setItem` effect on the table. -/
def tableSet (t : Table) (k v : String) : Table := (k, v) :: t

/-- Raw `window.sessionStorage.getItem`: may throw (modelled as `Except`). -/
def rawGetItem (env : StorageEnv) (t : Table) (k : String) :
    Except Unit (Option String) :=
  if env.readThrows then Except.error () else Except.ok (tableGet t k)

/-- Raw `window.sessionStorage.setItem`: may throw. -/
def rawSetItem (env : StorageEnv) (t : Table) (k v : String) :
    Except Unit Table :=
  if env.writeThrows then Except.error () else Except.ok (tableSet t k v)

/-- `safeGetSession` (lines 119-121 / 383-385): `try { return window defined ?
getItem(k) : null } catch { return null }`. -/
def safeGetSession (env : StorageEnv) (t : Table) (k : String) : Option String :=
  match (if env.hasWindow then rawGetItem env t k else Except.ok none) with
  | Except.ok v => v
  | Except.error _ => none

/-- `safeSetSession` (lines 122-124 / 386-388): `try { if (window defined)
setItem(k, v) } catch {}`; a failed write leaves the table unchanged. -/
def safeSetSession (env : StorageEnv) (t : Table) (k v : String) : Table :=
  match (if env.hasWindow then rawSetItem env t k v else Except.ok t) with
  | Except.ok t2 => t2
  | Except.error _ => t

-- ----------------------------
-- Link Dispatcher / Session Gate (lines 95-96, 126-139 / 363-364, 390-406)
-- ----------------------------

/-- Hardcoded sponsor fallback URL (lines 95 / 363). -/
def defaultAdUrl : String := "https://otieu.com/4/9449507"

/-- `adUrl = (process?.env?.NEXT_PUBLIC_MONETAG_URL as string) ||
"https://otieu.com/4/9449507"`: `none` models an unset variable, and the JS
`||` takes the fallback on an unset or empty value. -/
def adUrl (envUrl : Option String) : String :=
  match envUrl with
  | some u => if u = "" then defaultAdUrl else u
  | none => defaultAdUrl

/-- `onceKey` (lines 96 / 364). -/
def onceKey : String := "monetag_interstitial_once"

/-- Dispatcher state: the pending interstitial target (`interstitialFor`),
the session storage table, and the chronological log of `window.open` calls. -/
structure AppState where
  interstitialFor : Option Model
  table : Table
  opens : List String
  deriving DecidableEq

/-- The `shown` test `safeGetSession(onceKey) === "1"` (lines 128 / 392),
i.e. the Session Gate's `hasBeenShown`. -/
def hasBeenShown (env : StorageEnv) (t : Table) : Bool :=
  safeGetSession env t onceKey == some "1"

/-- `openLink` (lines 126-131 / 390-398); identical logic in both revisions. -/
def openLink (envUrl : Option String) (env : StorageEnv) (s : AppState)
    (m : Option Model) : AppState :=
  match m with
  | none => s
  | some mm =>
    if mm.url = "" then s
    else if adUrl envUrl ≠ "" ∧ hasBeenShown env s.table = false then
      { s with interstitialFor := some mm }
    else
      { s with opens := s.opens ++ [mm.url] }

/-- `proceed` of revision 1 (lines 133-139): `if (!m?.url) return;` comes
BEFORE the sponsor open and the gate marking. -/
def proceed_v1 (envUrl : Option String) (env : StorageEnv) (s : AppState) :
    AppState :=
  match s.interstitialFor with
  | none => { s with interstitialFor := none }
  | some m =>
    if m.url = "" then { s with interstitialFor := none }
    else
      let s1 := { s with interstitialFor := none }
      let s2 := if adUrl envUrl ≠ "" then
          { s1 with opens := s1.opens ++ [adUrl envUrl] } else s1
      let s3 := { s2 with table := safeSetSession env s2.table onceKey "1" }
      { s3 with opens := s3.opens ++ [m.url] }

/-- `proceed` of revision 2 (lines 400-406): sponsor open and gate marking
happen unconditionally; only the biography open is guarded by `m?.url`. -/
def proceed_v2 (envUrl : Option String) (env : StorageEnv) (s : AppState) :
    AppState :=
  let m := s.interstitialFor
  let s1 := { s with interstitialFor := none }
  let s2 := if adUrl envUrl ≠ "" then
      { s1 with opens := s1.opens ++ [adUrl envUrl] } else s1
  let s3 := { s2 with table := safeSetSession env s2.table onceKey "1" }
  match m with
  | none => s3
  | some mm => if mm.url = "" then s3 else { s3 with opens := s3.opens ++ [mm.url] }

/-- Dismissing the interstitial: `setInterstitialFor(null)` (lines 272 / the
close button); no navigation and no storage access. -/
def dismiss (s : AppState) : AppState := { s with interstitialFor := none }

-- ----------------------------
-- Touch input (lines 157-167 / 421-437)
-- ----------------------------

/-- Touch-handling state: the recorded start coordinate (`touchY` ref) and the
navigation cursor (`index`). -/
structure TouchState where
  touchY : Option Int
  index : Int
  deriving DecidableEq

/-- `onTouchStart` (lines 159 / 423): record `e.touches[0]?.clientY ?? null`. -/
def onTouchStart (clientY : Option Int) (s : TouchState) : TouchState :=
  { s with touchY := clientY }

/-- `onTouchEnd` of revision 1 (lines 160-163): early return below the
threshold (`Math.abs(dy) < 40`) leaves `touchY` untouched; the reset
`touchY.current = null` only runs on the navigation path. -/
def onTouchEnd_v1 (l : Nat) (clientY : Option Int) (s : TouchState) : TouchState :=
  match s.touchY, clientY with
  | some y0, some y =>
    let dy := y - y0
    if |dy| < 40 then s
    else if dy < 0 then { touchY := none, index := next l s.index }
    else { touchY := none, index := prev l s.index }
  | _, _ => s

/-- `onTouchEnd` of revision 2 (lines 424-430): navigation only when
`Math.abs(dy) > 40`, and `touchY.current = null` runs after the conditional,
on every touch-end that passed the null checks. -/
def onTouchEnd_v2 (l : Nat) (clientY : Option Int) (s : TouchState) : TouchState :=
  match s.touchY, clientY with
  | some y0, some y =>
    let dy := y - y0
    let s2 := if 40 < |dy| then
        (if dy < 0 then { s with index := next l s.index }
         else { s with index := prev l s.index })
      else s
    { s2 with touchY := none }
  | _, _ => s

-- ----------------------------
-- Current record (lines 169 / 439)
-- ----------------------------

/-- `current` of revision 1: `filtered.length > 0 ? (filtered[index] ?? null)
: null`; a negative or out-of-bounds JS index reads `undefined`. -/
def current_v1 (fl : List Model) (index : Int) : Option Model :=
  if 0 < fl.length then
    (if 0 ≤ index then fl[index.toNat]? else none)
  else none

/-- `current` of revision 2: `filtered[index] ?? null`. -/
def current_v2 (fl : List Model) (index : Int) : Option Model :=
  if 0 ≤ index then fl[index.toNat]? else none

-- ----------------------------
-- Helper lemmas
-- ----------------------------

/-- The sponsor URL is always truthy: JS `||` supplies the literal fallback. -/
theorem adUrl_ne_empty (e : Option String) : adUrl e ≠ "" := by
  cases e with
  | none => simp [adUrl, defaultAdUrl]
  | some u =>
    simp only [adUrl]
    split
    · simp [defaultAdUrl]
    · assumption

/-- Characterization of the prefix test. -/
theorem startsWithL_iff (p s : List Char) :
    startsWithL s p = true ↔ ∃ r, s = p ++ r := by
  induction p generalizing s with
  | nil => simp [startsWithL]
  | cons d p ih =>
    cases s with
    | nil => simp [startsWithL]
    | cons c s =>
      simp only [startsWithL, Bool.and_eq_true, beq_iff_eq, ih, List.cons_append,
        List.cons.injEq]
      constructor
      · rintro ⟨h1, r, h2⟩
        exact ⟨r, h1, h2⟩
      · rintro ⟨r, h1, h2⟩
        exact ⟨h1, r, h2⟩

/-- Characterization of the substring test: JS `includes` finds a contiguous
occurrence. -/
theorem containsSub_iff (s p : List Char) :
    containsSub s p = true ↔ ∃ l r, s = l ++ p ++ r := by
  induction s with
  | nil =>
    simp only [containsSub, startsWithL_iff]
    constructor
    · rintro ⟨r, h⟩
      exact ⟨[], r, by simpa using h⟩
    · rintro ⟨l, r, h⟩
      have h2 := h.symm
      simp only [List.append_eq_nil] at h2
      exact ⟨[], by simp [h2.1.2]⟩
  | cons c s ih =>
    simp only [containsSub, Bool.or_eq_true, startsWithL_iff, ih]
    constructor
    · rintro (⟨r, hr⟩ | ⟨l, r, hr⟩)
      · exact ⟨[], r, by simpa using hr⟩
      · exact ⟨c :: l, r, by simp [hr]⟩
    · rintro ⟨l, r, hr⟩
      cases l with
      | nil => exact Or.inl ⟨r, by simpa using hr⟩
      | cons x l =>
        rw [List.cons_append, List.cons_append] at hr
        have hx := List.head_eq_of_cons_eq hr
        have ht := List.tail_eq_of_cons_eq hr
        exact Or.inr ⟨l, r, by simpa using ht⟩

/-- Adding the modulus does not change the remainder. -/
theorem emod_add_cancel (a L : Int) : (a + L) % L = a % L := by
  have h := @Int.add_mul_emod_self_left a L 1
  rw [mul_one] at h
  exact h

/-- Writing the gate key makes it visible to a working read; a failed or
unavailable write leaves the table unchanged. -/
theorem tableGet_tableSet_same (t : Table) (k v : String) :
    tableGet (tableSet t k v) k = some v := by
  simp [tableGet, tableSet]

-- ----------------------------
-- Claim theorems
-- ----------------------------

/-- Claim C6: for every visible-sequence length L ≥ 1 and every cursor c in
[0, L), advance then retreat returns c and retreat then advance returns c
(inverse pair on the ring), where advance is (c + 1) mod L and retreat is
(c - 1 + L) mod L. -/
theorem next_prev_ring_inverse (l : Nat) (c : Int)
    (hl : 1 ≤ l) (h0 : 0 ≤ c) (hc : c < (l : Int)) :
    prev l (next l c) = c ∧ next l (prev l c) = c ∧
    next l c = (c + 1) % (l : Int) ∧ prev l c = (c - 1 + (l : Int)) % (l : Int) := by
  have hL : cycleLen l = (l : Int) := by
    simp only [cycleLen]
    omega
  have hLpos : (0 : Int) < (l : Int) := by exact_mod_cast hl
  have hnext : next l c = (c + 1) % (l : Int) := by
    rw [next, hL, Int.tmod_eq_emod (by omega) (by omega)]
  have hprev_def : ∀ a : Int, 0 ≤ a →
      prev l a = (a - 1 + (l : Int)) % (l : Int) := by
    intro a ha
    rw [prev, hL, Int.tmod_eq_emod (by omega) (by omega)]
  have hprev : prev l c = (c - 1 + (l : Int)) % (l : Int) := hprev_def c h0
  refine ⟨?_, ?_, hnext, hprev⟩
  · rw [hnext]
    by_cases h : c + 1 = (l : Int)
    · rw [h, Int.emod_self, hprev_def 0 le_rfl]
      have h1 : (0 : Int) - 1 + (l : Int) = (l : Int) - 1 := by ring
      rw [h1, Int.emod_eq_of_lt (by omega) (by omega)]
      omega
    · have hlt : c + 1 < (l : Int) := by omega
      rw [Int.emod_eq_of_lt (by omega) hlt, hprev_def (c + 1) (by omega)]
      have h1 : c + 1 - 1 + (l : Int) = c + (l : Int) := by ring
      rw [h1, emod_add_cancel, Int.emod_eq_of_lt h0 hc]
  · rw [hprev]
    by_cases h : c = 0
    · subst h
      have h1 : (0 : Int) - 1 + (l : Int) = (l : Int) - 1 := by ring
      rw [h1, Int.emod_eq_of_lt (by omega) (by omega), next, hL,
        Int.tmod_eq_emod (by omega) (by omega)]
      have h2 : (l : Int) - 1 + 1 = (l : Int) := by ring
      rw [h2, Int.emod_self]
    · have h1 : c - 1 + (l : Int) = (c - 1) + (l : Int) := by ring
      rw [h1, emod_add_cancel, Int.emod_eq_of_lt (by omega) (by omega), next, hL,
        Int.tmod_eq_emod (by omega) (by omega)]
      have h2 : c - 1 + 1 = c := by ring
      rw [h2, Int.emod_eq_of_lt h0 hc]

/-- Witness for C6 at L = 3, c = 1. -/
theorem next_prev_ring_inverse_witness :
    prev 3 (next 3 1) = 1 ∧ next 3 (prev 3 1) = 1 ∧
    next 3 1 = (1 + 1) % ((3 : Nat) : Int) ∧
    prev 3 1 = (1 - 1 + ((3 : Nat) : Int)) % ((3 : Nat) : Int) :=
  next_prev_ring_inverse 3 1 (by decide) (by decide) (by decide)

/-- Counterexample for C7 as stated: the revision-2 clamp (lines 375-377)
leaves a negative cursor unchanged instead of resetting it to 0. -/
theorem clamp_negative_cex :
    clampIndex_v2 (-1) 3 = -1 ∧ ¬ (0 ≤ (-1 : Int)) := by decide

/-- Claim C7 (amended): the revision-1 clamp (lines 109-112) resets any cursor
outside [0, L) — including negative — to 0 and leaves in-range cursors
unchanged, so after it runs the cursor is in range whenever L > 0; the
revision-2 clamp (lines 375-377) resets only cursors ≥ L and leaves negative
cursors unchanged. -/
theorem clamp_resets_cursor (i : Int) (l : Nat) :
    (¬ (0 ≤ i ∧ i < (l : Int)) → clampIndex_v1 i l = 0) ∧
    (0 ≤ i → i < (l : Int) → clampIndex_v1 i l = i) ∧
    ((l : Int) ≤ i → clampIndex_v2 i l = 0) ∧
    (i < (l : Int) → clampIndex_v2 i l = i) ∧
    (0 ≤ clampIndex_v1 i l ∧ (clampIndex_v1 i l < (l : Int) ∨ l = 0)) := by
  refine ⟨?_, ?_, ?_, ?_, ?_⟩ <;>
    simp only [clampIndex_v1, clampIndex_v2] <;>
    split_ifs <;> intros <;> omega

/-- Witness for C7's amended statement: out-of-range cursors at L = 3. -/
theorem clamp_resets_cursor_witness :
    clampIndex_v1 (-1) 3 = 0 ∧ clampIndex_v2 5 3 = 0 ∧ clampIndex_v1 2 3 = 2 :=
  ⟨(clamp_resets_cursor (-1) 3).1 (by decide),
   (clamp_resets_cursor 5 3).2.2.1 (by decide),
   (clamp_resets_cursor 2 3).2.1 (by decide) (by decide)⟩

/-- openLink never writes to session storage. -/
theorem openLink_table_unchanged (e : Option String) (env : StorageEnv)
    (s : AppState) (m : Option Model) : (openLink e env s m).table = s.table := by
  cases m with
  | none => rfl
  | some mm =>
    simp only [openLink]
    split_ifs <;> rfl

/-- A true gate flag survives the gate-marking write, whatever the
environment does. -/
theorem hasBeenShown_after_set (env : StorageEnv) (t : Table)
    (h : hasBeenShown env t = true) :
    hasBeenShown env (safeSetSession env t onceKey "1") = true := by
  obtain ⟨w, r, wf⟩ := env
  cases w <;> cases r <;> cases wf <;>
    simp_all [hasBeenShown, safeGetSession, safeSetSession, rawGetItem,
      rawSetItem, tableGet_tableSet_same]

/-- In a working environment the gate-marking write makes the flag read true. -/
theorem hasBeenShown_mark (env : StorageEnv) (t : Table)
    (hw : env.hasWindow = true) (hr : env.readThrows = false)
    (hwf : env.writeThrows = false) :
    hasBeenShown env (safeSetSession env t onceKey "1") = true := by
  obtain ⟨w, r, wf⟩ := env
  simp only at hw hr hwf
  subst hw
  subst hr
  subst hwf
  simp [hasBeenShown, safeGetSession, safeSetSession, rawGetItem, rawSetItem,
    tableGet_tableSet_same]

/-- The table produced by revision-1 proceed: unchanged on the early-return
paths, the gate-marking write otherwise. -/
theorem proceed_v1_table (e : Option String) (env : StorageEnv) (s : AppState) :
    (proceed_v1 e env s).table = s.table ∨
    (proceed_v1 e env s).table = safeSetSession env s.table onceKey "1" := by
  have had := adUrl_ne_empty e
  simp only [proceed_v1]
  cases s.interstitialFor with
  | none => exact Or.inl rfl
  | some m =>
    by_cases hu : m.url = ""
    · simp [hu]
    · simp [hu, had]

/-- Revision-2 proceed always performs the gate-marking write. -/
theorem proceed_v2_table (e : Option String) (env : StorageEnv) (s : AppState) :
    (proceed_v2 e env s).table = safeSetSession env s.table onceKey "1" := by
  have had := adUrl_ne_empty e
  simp only [proceed_v2]
  cases s.interstitialFor with
  | none => simp [had]
  | some m => by_cases hu : m.url = "" <;> simp [hu, had]

/-- Claim C1: openLink on an absent record or an empty url is a no-op; on a
fresh session it transitions to InterstitialPending with zero navigation
opens; after proceed from a pending state (in a working storage environment)
the gate reads shown, and any later openLink performs exactly one navigation
open — the record's url — with no interstitial. -/
theorem openLink_session_gate (e : Option String) (env : StorageEnv) :
    (∀ s : AppState, openLink e env s none = s) ∧
    (∀ (s : AppState) (m : Model), m.url = "" → openLink e env s (some m) = s) ∧
    (∀ (s : AppState) (m : Model), m.url ≠ "" → hasBeenShown env s.table = false →
      openLink e env s (some m) = { s with interstitialFor := some m }) ∧
    (env.hasWindow = true → env.readThrows = false → env.writeThrows = false →
      ∀ (s : AppState) (m : Model), s.interstitialFor = some m → m.url ≠ "" →
        hasBeenShown env (proceed_v1 e env s).table = true ∧
        hasBeenShown env (proceed_v2 e env s).table = true) ∧
    (∀ (s : AppState) (m : Model), hasBeenShown env s.table = true → m.url ≠ "" →
      (openLink e env s (some m)).opens = s.opens ++ [m.url] ∧
      (openLink e env s (some m)).interstitialFor = s.interstitialFor ∧
      (openLink e env s (some m)).table = s.table) := by
  have had := adUrl_ne_empty e
  refine ⟨fun s => rfl, ?_, ?_, ?_, ?_⟩
  · intro s m hu
    simp [openLink, hu]
  · intro s m hu hsh
    simp [openLink, hu, hsh, had]
  · intro hw hr hwf s m hm hu
    constructor
    · have htab : (proceed_v1 e env s).table = safeSetSession env s.table onceKey "1" := by
        simp [proceed_v1, hm, hu, had]
      rw [htab]
      exact hasBeenShown_mark env s.table hw hr hwf
    · rw [proceed_v2_table]
      exact hasBeenShown_mark env s.table hw hr hwf
  · intro s m hsh hu
    refine ⟨?_, ?_, ?_⟩ <;> simp [openLink, hu, hsh]

/-- Witness for C1: a working environment, a fresh session for the proceed
step, and a session with the gate already tripped for the direct-open step. -/
theorem openLink_session_gate_witness :
    hasBeenShown ⟨true, false, false⟩
      (proceed_v1 none ⟨true, false, false⟩
        { interstitialFor := some ⟨"A", "u", "i", []⟩, table := [], opens := [] }).table
      = true ∧
    (openLink none ⟨true, false, false⟩
      { interstitialFor := none, table := [("monetag_interstitial_once", "1")],
        opens := [] }
      (some ⟨"A", "u", "i", []⟩)).opens = [] ++ ["u"] := by
  constructor
  · exact ((openLink_session_gate none ⟨true, false, false⟩).2.2.2.1
      rfl rfl rfl _ _ rfl (by decide)).1
  · exact ((openLink_session_gate none ⟨true, false, false⟩).2.2.2.2
      _ _ (by decide) (by decide)).1

/-- Counterexample for C2 as stated: in revision 1 (lines 133-139) a proceed
whose pending target has an empty url performs neither the sponsor open nor
the gate marking — the opens log stays empty and the gate still reads false,
even in a fully working storage environment. -/
theorem proceed_defensive_cex :
    (proceed_v1 none ⟨true, false, false⟩
      { interstitialFor := some ⟨"X", "", "img", []⟩, table := [],
        opens := [] }).opens = [] ∧
    hasBeenShown ⟨true, false, false⟩
      (proceed_v1 none ⟨true, false, false⟩
        { interstitialFor := some ⟨"X", "", "img", []⟩, table := [],
          opens := [] }).table = false := by
  decide

/-- Claim C2 (amended): from InterstitialPending(target) with a non-empty
target url, proceed in both revisions opens the sponsor URL strictly before
the target url, performs the gate-marking storage write, and clears the
pending target.  When the pending target is absent or has an empty url,
revision 2 (lines 400-406) still performs the sponsor open and the gate
marking, skipping only the biography open, while revision 1 (lines 133-139)
performs neither and leaves the storage untouched. -/
theorem proceed_opens_in_order (e : Option String) (env : StorageEnv) :
    (∀ (s : AppState) (m : Model), s.interstitialFor = some m → m.url ≠ "" →
      (proceed_v1 e env s).opens = s.opens ++ [adUrl e, m.url] ∧
      (proceed_v1 e env s).table = safeSetSession env s.table onceKey "1" ∧
      (proceed_v1 e env s).interstitialFor = none ∧
      proceed_v2 e env s = proceed_v1 e env s) ∧
    (∀ s : AppState,
      (s.interstitialFor = none ∨ ∃ m, s.interstitialFor = some m ∧ m.url = "") →
      (proceed_v2 e env s).opens = s.opens ++ [adUrl e] ∧
      (proceed_v2 e env s).table = safeSetSession env s.table onceKey "1" ∧
      (proceed_v2 e env s).interstitialFor = none ∧
      proceed_v1 e env s = { s with interstitialFor := none }) := by
  have had := adUrl_ne_empty e
  constructor
  · intro s m hm hu
    refine ⟨?_, ?_, ?_, ?_⟩ <;> simp [proceed_v1, proceed_v2, hm, hu, had]
  · intro s hcase
    rcases hcase with hm | ⟨m, hm, hu⟩
    · refine ⟨?_, ?_, ?_, ?_⟩ <;> simp [proceed_v1, proceed_v2, hm, had]
    · refine ⟨?_, ?_, ?_, ?_⟩ <;> simp [proceed_v1, proceed_v2, hm, hu, had]

/-- Witness for C2's amended statement: a concrete pending click completes
with the sponsor open first, and a url-less pending click in revision 2 still
opens the sponsor. -/
theorem proceed_opens_in_order_witness :
    (proceed_v1 none ⟨true, false, false⟩
      { interstitialFor := some ⟨"A", "u", "i", []⟩, table := [],
        opens := [] }).opens = [] ++ [adUrl none, "u"] ∧
    (proceed_v2 none ⟨true, false, false⟩
      { interstitialFor := some ⟨"X", "", "img", []⟩, table := [],
        opens := [] }).opens = [] ++ [adUrl none] := by
  constructor
  · exact ((proceed_opens_in_order none ⟨true, false, false⟩).1
      { interstitialFor := some ⟨"A", "u", "i", []⟩, table := [], opens := [] }
      ⟨"A", "u", "i", []⟩ rfl (by decide)).1
  · exact ((proceed_opens_in_order none ⟨true, false, false⟩).2
      { interstitialFor := some ⟨"X", "", "img", []⟩, table := [], opens := [] }
      (Or.inr ⟨⟨"X", "", "img", []⟩, rfl, rfl⟩)).1

/-- Claim C3: dismiss never touches the session gate (so the interstitial can
trigger again on the next click), and once the gate flag reads true no
operation of the dispatcher — openLink, either proceed, or dismiss — ever
makes it read false again. -/
theorem gate_flag_monotone (e : Option String) (env : StorageEnv) :
    (∀ s : AppState, (dismiss s).table = s.table ∧ (dismiss s).opens = s.opens) ∧
    (∀ (s : AppState) (m : Model), hasBeenShown env s.table = false → m.url ≠ "" →
      (openLink e env (dismiss s) (some m)).interstitialFor = some m) ∧
    (∀ (s : AppState) (m : Option Model), hasBeenShown env s.table = true →
      hasBeenShown env (openLink e env s m).table = true ∧
      hasBeenShown env (proceed_v1 e env s).table = true ∧
      hasBeenShown env (proceed_v2 e env s).table = true ∧
      hasBeenShown env (dismiss s).table = true) := by
  have had := adUrl_ne_empty e
  refine ⟨fun s => ⟨rfl, rfl⟩, ?_, ?_⟩
  · intro s m hsh hu
    simp [openLink, dismiss, hu, had, hsh]
  · intro s m hsh
    refine ⟨?_, ?_, ?_, hsh⟩
    · rw [openLink_table_unchanged]
      exact hsh
    · rcases proceed_v1_table e env s with h | h
      · rw [h]
        exact hsh
      · rw [h]
        exact hasBeenShown_after_set env s.table hsh
    · rw [proceed_v2_table]
      exact hasBeenShown_after_set env s.table hsh

/-- Witness for C3: with the gate tripped, openLink keeps it tripped; with a
fresh gate, a dismissed click retries the interstitial. -/
theorem gate_flag_monotone_witness :
    hasBeenShown ⟨true, false, false⟩
      (openLink none ⟨true, false, false⟩
        { interstitialFor := none, table := [("monetag_interstitial_once", "1")],
          opens := [] } none).table = true ∧
    (openLink none ⟨true, false, false⟩
      (dismiss { interstitialFor := some ⟨"A", "u", "i", []⟩, table := [], opens := [] })
      (some ⟨"A", "u", "i", []⟩)).interstitialFor = some ⟨"A", "u", "i", []⟩ := by
  constructor
  · exact ((gate_flag_monotone none ⟨true, false, false⟩).2.2
      { interstitialFor := none, table := [("monetag_interstitial_once", "1")],
        opens := [] } none (by decide)).1
  · exact (gate_flag_monotone none ⟨true, false, false⟩).2.1
      { interstitialFor := some ⟨"A", "u", "i", []⟩, table := [], opens := [] }
      ⟨"A", "u", "i", []⟩ (by decide) (by decide)

/-- Claim C8: the Session Gate operations are total under storage failure.
The raw storage operations genuinely throw in a failing environment, yet the
guarded read returns plain `none` (so the gate reads false) whenever the
window is absent or the read throws, and the guarded write never propagates an
error: it either leaves the table unchanged (absent window or throwing write)
or performs the plain insert. -/
theorem session_gate_storage_total (env : StorageEnv) (t : Table) (k v : String) :
    (env.hasWindow = false ∨ env.readThrows = true →
      safeGetSession env t k = none ∧ hasBeenShown env t = false) ∧
    (env.readThrows = true → rawGetItem env t k = Except.error ()) ∧
    (env.writeThrows = true → rawSetItem env t k v = Except.error ()) ∧
    (env.hasWindow = false ∨ env.writeThrows = true →
      safeSetSession env t k v = t) ∧
    (safeSetSession env t k v = t ∨ safeSetSession env t k v = tableSet t k v) := by
  obtain ⟨w, r, wf⟩ := env
  refine ⟨?_, ?_, ?_, ?_, ?_⟩ <;>
    cases w <;> cases r <;> cases wf <;>
      simp [safeGetSession, safeSetSession, rawGetItem, rawSetItem, hasBeenShown]

/-- Witness for C8: a throwing read fails open and a throwing write is
swallowed, on a concrete table. -/
theorem session_gate_storage_total_witness :
    safeGetSession ⟨true, true, true⟩ [("monetag_interstitial_once", "1")]
      "monetag_interstitial_once" = none ∧
    safeSetSession ⟨true, true, true⟩ [] "monetag_interstitial_once" "1" = [] := by
  constructor
  · exact ((session_gate_storage_total ⟨true, true, true⟩
      [("monetag_interstitial_once", "1")] "monetag_interstitial_once" "1").1
      (Or.inr rfl)).1
  · exact (session_gate_storage_total ⟨true, true, true⟩ []
      "monetag_interstitial_once" "1").2.2.2.1 (Or.inr rfl)

/-- Counterexample for C4 as stated: for the directory `MODELS` and the
non-empty trimmed query "zzz" the case-insensitive match set is empty, yet
`filtered` returns the full directory rather than exactly the matching
records. -/
theorem filtered_exact_match_cex :
    MODELS.filter (fun m => matchesQuery m "zzz") = [] ∧
    filtered MODELS "zzz" = MODELS ∧ MODELS ≠ [] := by decide

/-- Claim C4 (amended): for a non-empty trimmed query with at least one match,
`filtered` returns exactly the records whose lowered name or a lowered tag
contains the query as a substring, in the directory's original order; with
zero matches it returns the full directory; the result is always a stable
subsequence of the directory; and an empty or whitespace-only query gives the
directory back unchanged. -/
theorem filtered_characterization (D : List Model) (query : String) :
    (jsTrim query = "" → filtered D query = D) ∧
    (jsToLower (jsTrim query) ≠ "" →
      D.filter (fun m => matchesQuery m (jsToLower (jsTrim query))) ≠ [] →
      filtered D query =
        D.filter (fun m => matchesQuery m (jsToLower (jsTrim query)))) ∧
    (filtered D query = D ∨
      filtered D query =
        D.filter (fun m => matchesQuery m (jsToLower (jsTrim query)))) ∧
    List.Sublist (filtered D query) D ∧
    (∀ (m : Model) (q : String), matchesQuery m q = true ↔
      ∃ t ∈ m.name :: m.tags, ∃ l r : List Char,
        (jsToLower t).data = l ++ q.data ++ r) := by
  refine ⟨?_, ?_, ?_, ?_, ?_⟩
  · intro h
    have h0 : jsToLower (jsTrim query) = "" := by rw [h]; rfl
    simp [filtered, h0]
  · intro hq hne
    simp only [filtered]
    rw [if_neg hq, if_pos (List.length_pos.mpr hne)]
  · by_cases hq : jsToLower (jsTrim query) = ""
    · left
      simp [filtered, hq]
    · by_cases hne :
        D.filter (fun m => matchesQuery m (jsToLower (jsTrim query))) = []
      · left
        simp [filtered, hq, hne]
      · right
        simp only [filtered]
        rw [if_neg hq, if_pos (List.length_pos.mpr hne)]
  · by_cases hq : jsToLower (jsTrim query) = ""
    · have h1 : filtered D query = D := by simp [filtered, hq]
      rw [h1]
    · simp only [filtered]
      rw [if_neg hq]
      split
      · exact List.filter_sublist D
      · exact List.Sublist.refl D
  · intro m q
    simp only [matchesQuery, List.any_eq_true, jsIncludes]
    constructor
    · rintro ⟨t, ht, h⟩
      exact ⟨t, ht, (containsSub_iff _ _).mp h⟩
    · rintro ⟨t, ht, l, r, h⟩
      exact ⟨t, ht, (containsSub_iff _ _).mpr ⟨l, r, h⟩⟩

/-- Witness for C4's amended statement: the query "actress" has matches in
`MODELS` and `filtered` returns exactly those matches. -/
theorem filtered_characterization_witness :
    filtered MODELS "actress" =
      MODELS.filter (fun m => matchesQuery m (jsToLower (jsTrim "actress"))) :=
  (filtered_characterization MODELS "actress").2.1 (by decide) (by decide)

/-- Claim C5: when the case-insensitive match set is empty, `filtered` falls
back to the full directory, so the visible sequence is empty exactly when the
directory itself is empty. -/
theorem filtered_fallback_nonempty (D : List Model) (q : String) :
    (D.filter (fun m => matchesQuery m (jsToLower (jsTrim q))) = [] →
      filtered D q = D) ∧
    (filtered D q = [] ↔ D = []) := by
  constructor
  · intro hne
    by_cases hq : jsToLower (jsTrim q) = ""
    · simp [filtered, hq]
    · simp [filtered, hq, hne]
  · constructor
    · intro h
      by_cases hq : jsToLower (jsTrim q) = ""
      · simpa [filtered, hq] using h
      · simp only [filtered] at h
        rw [if_neg hq] at h
        by_cases hne :
          D.filter (fun m => matchesQuery m (jsToLower (jsTrim q))) = []
        · simpa [hne] using h
        · rw [if_pos (List.length_pos.mpr hne)] at h
          exact absurd h hne
    · intro h
      subst h
      by_cases hq : jsToLower (jsTrim q) = "" <;> simp [filtered, hq]

/-- Witness for C5: a no-match query on the concrete directory falls back to
the whole directory. -/
theorem filtered_fallback_nonempty_witness :
    filtered MODELS "qqq" = MODELS :=
  (filtered_fallback_nonempty MODELS "qqq").1 (by decide)

/-- Counterexample for C9 as stated: in revision 1 (lines 160-163) a
below-threshold touch-end leaves the recorded start coordinate in place
instead of resetting it, and a touch with absolute delta exactly 40 — which
does not exceed 40 — still navigates. -/
theorem touch_reset_cex :
    (onTouchEnd_v1 3 (some 20) ⟨some 0, 0⟩).touchY = some 0 ∧
    (onTouchEnd_v1 3 (some (-40)) ⟨some 0, 0⟩).index = 1 ∧
    ¬ ((40 : Int) < |(-40 : Int) - 0|) := by decide

/-- Claim C9 (amended): the touch-start handler records the coordinate; in
revision 2 (lines 424-430) navigation fires only when the absolute delta
strictly exceeds 40 — advance for a negative delta, retreat otherwise — and
the recorded start coordinate is reset after every touch-end that reads valid
coordinates, regardless of the threshold; in revision 1 (lines 160-163)
navigation fires already at absolute delta 40 and the start coordinate is
reset only on the navigation path, a below-threshold touch-end being a
complete no-op.  A touch-end without a recorded start or without an end
coordinate changes nothing in either revision. -/
theorem touch_gesture_behavior (l : Nat) (y0 y : Int) (s : TouchState) :
    (∀ c : Option Int,
      (onTouchStart c s).touchY = c ∧ (onTouchStart c s).index = s.index) ∧
    (s.touchY = some y0 →
      (|y - y0| ≤ 40 → onTouchEnd_v2 l (some y) s = { s with touchY := none }) ∧
      (40 < |y - y0| → y - y0 < 0 →
        onTouchEnd_v2 l (some y) s = { touchY := none, index := next l s.index }) ∧
      (40 < |y - y0| → 0 ≤ y - y0 →
        onTouchEnd_v2 l (some y) s = { touchY := none, index := prev l s.index }) ∧
      (|y - y0| < 40 → onTouchEnd_v1 l (some y) s = s) ∧
      (40 ≤ |y - y0| → y - y0 < 0 →
        onTouchEnd_v1 l (some y) s = { touchY := none, index := next l s.index }) ∧
      (40 ≤ |y - y0| → 0 ≤ y - y0 →
        onTouchEnd_v1 l (some y) s = { touchY := none, index := prev l s.index })) ∧
    (onTouchEnd_v1 l none s = s ∧ onTouchEnd_v2 l none s = s) := by
  obtain ⟨ty, ix⟩ := s
  refine ⟨fun c => ⟨rfl, rfl⟩, ?_, ?_, ?_⟩
  · intro hty
    simp only at hty
    subst hty
    refine ⟨?_, ?_, ?_, ?_, ?_, ?_⟩
    · intro h
      simp only [onTouchEnd_v2]
      rw [if_neg (by omega)]
    · intro h hneg
      simp only [onTouchEnd_v2]
      rw [if_pos h, if_pos hneg]
    · intro h hpos
      simp only [onTouchEnd_v2]
      rw [if_pos h, if_neg (by omega)]
    · intro h
      simp only [onTouchEnd_v1]
      rw [if_pos h]
    · intro h hneg
      simp only [onTouchEnd_v1]
      rw [if_neg (by omega), if_pos hneg]
    · intro h hpos
      simp only [onTouchEnd_v1]
      rw [if_neg (by omega), if_neg (by omega)]
  · cases ty <;> rfl
  · cases ty <;> rfl

/-- Witness for C9's amended statement: an 80-unit upward swipe advances and
resets in revision 2, and a 10-unit move is dropped while resetting. -/
theorem touch_gesture_behavior_witness :
    onTouchEnd_v2 3 (some (-80)) ⟨some 0, 0⟩ = ⟨none, next 3 0⟩ ∧
    onTouchEnd_v2 3 (some 10) ⟨some 0, 0⟩ = ⟨none, 0⟩ := by
  constructor
  · exact ((touch_gesture_behavior 3 0 (-80) ⟨some 0, 0⟩).2.1 rfl).2.1
      (by decide) (by decide)
  · exact ((touch_gesture_behavior 3 0 10 ⟨some 0, 0⟩).2.1 rfl).1 (by decide)

/-- Claim C10: the current-record lookup is total — for any integer cursor it
returns either an element of the filtered sequence or `none`, it returns
`none` on the empty sequence, and the two revisions agree. -/
theorem current_lookup_total (fl : List Model) (i : Int) :
    (∀ m : Model, current_v1 fl i = some m → m ∈ fl) ∧
    (∀ m : Model, current_v2 fl i = some m → m ∈ fl) ∧
    (fl = [] → current_v1 fl i = none ∧ current_v2 fl i = none) ∧
    current_v1 fl i = current_v2 fl i := by
  have hmem : ∀ m : Model, current_v2 fl i = some m → m ∈ fl := by
    intro m h
    simp only [current_v2] at h
    split at h
    · exact List.getElem?_mem h
    · exact absurd h (by simp)
  have heq : current_v1 fl i = current_v2 fl i := by
    simp only [current_v1, current_v2]
    split
    · rfl
    · have hnil : fl = [] := by
        cases fl with
        | nil => rfl
        | cons a t => simp_all
      subst hnil
      split <;> simp
  refine ⟨?_, hmem, ?_, heq⟩
  · intro m h
    rw [heq] at h
    exact hmem m h
  · intro hnil
    subst hnil
    refine ⟨?_, ?_⟩ <;> simp [current_v1, current_v2]

/-- Witness for C10: cursor 0 on the concrete directory yields its first
record, which is a member of the directory. -/
theorem current_lookup_total_witness :
    (⟨"Charvi Bhatt", "https://link-shortner-indol-nu.vercel.app/v0riwp",
      "https://i.ibb.co/xqwpVcCB/IMG-20251110-003150-720.jpg",
      ["actress", "biography", "reels"]⟩ : Model) ∈ MODELS :=
  (current_lookup_total MODELS 0).1
    ⟨"Charvi Bhatt", "https://link-shortner-indol-nu.vercel.app/v0riwp",
      "https://i.ibb.co/xqwpVcCB/IMG-20251110-003150-720.jpg",
      ["actress", "biography", "reels"]⟩ (by decide)
